import Mathlib

/-!
Verification of the Meta Ads API client and error-normalization layer.

The definitions below are a shallow embedding of the TypeScript source:
`src/utils/errors.ts` (error classes and `parseMetaApiError`),
`src/client.ts` (the generic `request` primitive, `postForm`, the
entity-operation parameter builders and `createMetaAdsClient`) and
`src/types/env.ts` (`TenantCredentials`).  JavaScript strings are modelled
as Lean `String`, JavaScript numbers that matter here as `Int` (with a
dedicated `nan` constructor where `Number.parseInt` can produce `NaN`),
`undefined` as `Option.none`, and JavaScript truthiness is modelled
explicitly (`""`, `0` and `undefined` are falsy).
-/

namespace MetaAds

/-- A JavaScript number as it appears in the rate-limit retry-after field:
either a proper integer or `NaN` (the result of `Number.parseInt` on a
string with no digit prefix). -/
inductive JsNum where
  | nan : JsNum
  | int (n : Int) : JsNum
  deriving DecidableEq, Repr

/-- JavaScript `a || d` for an optional string `a`: `undefined` and the
empty string are falsy. -/
def jsOrString : Option String → String → String
  | none, d => d
  | some s, d => if s = "" then d else s

/-- JavaScript `a || d` for an optional number `a`: `undefined` and `0`
are falsy. -/
def jsOrInt : Option Int → Int → Int
  | none, d => d
  | some n, d => if n = 0 then d else n

/-- The whitespace characters `Number.parseInt` skips (the common ones). -/
def jsWhitespace (c : Char) : Bool :=
  c = ' ' || c = '\t' || c = '\n' || c = '\r'

/-- Decimal digit test. -/
def jsDigit (c : Char) : Bool :=
  decide ('0' ≤ c) && decide (c ≤ '9')

/-- Accumulate the leading run of decimal digits; `none` when no digit has
been seen yet, mirroring `parseInt` returning `NaN` without digits. -/
def parseDigitsAux : List Char → Option Nat → Option Nat
  | [], acc => acc
  | c :: cs, acc =>
    if jsDigit c then parseDigitsAux cs (some (10 * acc.getD 0 + (c.toNat - 48)))
    else acc

/-- `Number.parseInt(s, 10)`: skip leading whitespace, read an optional
sign and then the longest digit prefix; `NaN` when there is none. -/
def jsParseInt (s : String) : JsNum :=
  match s.data.dropWhile jsWhitespace with
  | '-' :: rest =>
    match parseDigitsAux rest none with
    | some n => .int (-(n : Int))
    | none => .nan
  | '+' :: rest =>
    match parseDigitsAux rest none with
    | some n => .int n
    | none => .nan
  | cs =>
    match parseDigitsAux cs none with
    | some n => .int n
    | none => .nan

/-- JavaScript `String.prototype.startsWith`: the code units of the
argument are a prefix of the receiver's. -/
def jsStartsWith (s : String) (pre : String) : Bool :=
  List.isPrefixOf pre.data s.data

/-- Does `sub` occur contiguously inside `l`? -/
def listInfix (sub : List Char) : List Char → Bool
  | [] => sub.isEmpty
  | c :: t => List.isPrefixOf sub (c :: t) || listInfix sub t

/-- Boolean substring test (used only to state properties about messages). -/
def strContains (s sub : String) : Bool :=
  listInfix sub.data s.data

def optStrContains (o : Option String) (sub : String) : Bool :=
  match o with
  | some s => strContains s sub
  | none => false

/-! ## Error taxonomy (`src/utils/errors.ts`) -/

/-- The `name` discriminant set by each error class constructor. -/
inductive ErrorName where
  | metaAdsApiError
  | rateLimitError
  | authenticationError
  | permissionError
  | notFoundError
  | validationError
  deriving DecidableEq, Repr

/-- The fields of `MetaAdsApiError` and its subclasses, flattened:
`retryAfterSeconds` is populated only by `RateLimitError`, `details` only
by `ValidationError`. -/
structure MetaAdsApiError where
  name : ErrorName
  message : String
  statusCode : Option Int
  code : String
  retryable : Bool
  errorSubcode : Option Int
  errorUserTitle : Option String
  errorUserMsg : Option String
  fbTraceId : Option String
  retryAfterSeconds : Option JsNum
  details : Option (List (String × List String))
  deriving DecidableEq, Repr

/-- The `MetaAdsApiError` base-class constructor:
`this.code = code || 'META_ADS_ERROR'`, extras copied when given. -/
def mkMetaAdsApiError (message : String) (statusCode : Option Int) (code : Option String)
    (retryable : Bool) (errorSubcode : Option Int) (errorUserTitle : Option String)
    (errorUserMsg : Option String) (fbTraceId : Option String) : MetaAdsApiError :=
  { name := .metaAdsApiError
    message := message
    statusCode := statusCode
    code := jsOrString code "META_ADS_ERROR"
    retryable := retryable
    errorSubcode := errorSubcode
    errorUserTitle := errorUserTitle
    errorUserMsg := errorUserMsg
    fbTraceId := fbTraceId
    retryAfterSeconds := none
    details := none }

/-- `RateLimitError`: `super(message, 429, 'RATE_LIMIT_EXCEEDED', true, fbTraceId)`
plus the `retryAfterSeconds` field. -/
def mkRateLimitError (message : String) (retryAfterSeconds : JsNum)
    (fbTraceId : Option String) : MetaAdsApiError :=
  { mkMetaAdsApiError message (some 429) (some "RATE_LIMIT_EXCEEDED") true
      none none none fbTraceId with
    name := .rateLimitError
    retryAfterSeconds := some retryAfterSeconds }

/-- `AuthenticationError`: `super(message, 401, 'AUTHENTICATION_FAILED', false, ...)`. -/
def mkAuthenticationError (message : String) (errorSubcode : Option Int)
    (fbTraceId : Option String) : MetaAdsApiError :=
  { mkMetaAdsApiError message (some 401) (some "AUTHENTICATION_FAILED") false
      errorSubcode none none fbTraceId with
    name := .authenticationError }

/-- `PermissionError`: `super(message, 403, 'PERMISSION_DENIED', false, ...)`. -/
def mkPermissionError (message : String) (errorSubcode : Option Int)
    (fbTraceId : Option String) : MetaAdsApiError :=
  { mkMetaAdsApiError message (some 403) (some "PERMISSION_DENIED") false
      errorSubcode none none fbTraceId with
    name := .permissionError }

/-- `ValidationError`: `super(message, 400, 'VALIDATION_ERROR', false, ...)`
plus the `details` map. -/
def mkValidationError (message : String) (details : List (String × List String))
    (fbTraceId : Option String) : MetaAdsApiError :=
  { mkMetaAdsApiError message (some 400) (some "VALIDATION_ERROR") false
      none none none fbTraceId with
    name := .validationError
    details := some details }

/-- The upstream `error` object inside an error response body. -/
structure MetaErrorObject where
  message : Option String
  code : Option Int
  error_subcode : Option Int
  error_user_title : Option String
  error_user_msg : Option String
  fbtrace_id : Option String
  deriving DecidableEq, Repr

/-- An upstream error response body: it either carries a recognizable
`error` object or it does not (`none` also models the `{}` substituted
when the body fails to parse). -/
structure ErrorBody where
  error : Option MetaErrorObject
  deriving DecidableEq, Repr

/-- `code && code >= 200 && code < 300` (note the JavaScript truthiness
check on `code` itself: `undefined` and `0` short-circuit to false). -/
def jsCodeInPermissionRange : Option Int → Bool
  | none => false
  | some c => (!(c == 0)) && decide (200 ≤ c) && decide (c < 300)

/-- `code ? String(code) : 'UNKNOWN_ERROR'` in the generic fallback. -/
def jsCodeString : Option Int → String
  | none => "UNKNOWN_ERROR"
  | some c => if c = 0 then "UNKNOWN_ERROR" else toString c

/-- `parseMetaApiError(errorBody, statusCode)`: classify an upstream error
body, in the source's branch order. -/
def parseMetaApiError (errorBody : ErrorBody) (statusCode : Int) : MetaAdsApiError :=
  match errorBody.error with
  | none =>
    mkMetaAdsApiError ("API error: " ++ toString statusCode) (some statusCode)
      (some "UNKNOWN_ERROR") false none none none none
  | some error =>
    let message := jsOrString error.message "Unknown error"
    let code := error.code
    let errorSubcode := error.error_subcode
    let errorUserTitle := error.error_user_title
    let errorUserMsg := error.error_user_msg
    let fbTraceId := error.fbtrace_id
    if code = some 190 then
      mkAuthenticationError message errorSubcode fbTraceId
    else if code = some 10 ∨ jsCodeInPermissionRange code then
      mkPermissionError message errorSubcode fbTraceId
    else if code = some 4 ∨ code = some 17 ∨ code = some 32 ∨ code = some 613 then
      mkRateLimitError message (.int 60) fbTraceId
    else if code = some 100 then
      mkValidationError message [] fbTraceId
    else
      mkMetaAdsApiError message (some statusCode) (some (jsCodeString code)) false
        errorSubcode errorUserTitle errorUserMsg fbTraceId

/-! ## Query/form parameter values and serialization (`src/client.ts`, `request`) -/

/-- A value in a `params` record: `string | string[] | number | boolean`
(`undefined` is modelled by wrapping in `Option` at the entry level). -/
inductive ParamValue where
  | str (s : String)
  | num (n : Int)
  | bool (b : Bool)
  | arr (xs : List String)
  deriving DecidableEq, Repr

/-- JSON encoding of one string (quote and escape backslash/quote). -/
def jsonEscapeChar (c : Char) : String :=
  if c = '"' then "\\\"" else if c = '\\' then "\\\\" else String.singleton c

def jsonEncodeString (s : String) : String :=
  "\"" ++ String.join (s.data.map jsonEscapeChar) ++ "\""

/-- `JSON.stringify` of a string array. -/
def jsonEncodeStrList (xs : List String) : String :=
  "[" ++ String.intercalate "," (xs.map jsonEncodeString) ++ "]"

/-- `Array.isArray(value) ? JSON.stringify(value) : String(value)`. -/
def serializeParamValue : ParamValue → String
  | .arr xs => jsonEncodeStrList xs
  | .str s => s
  | .num n => toString n
  | .bool b => if b then "true" else "false"

/-- The `request` loop over `Object.entries(params)`: entries whose value
is `undefined` are skipped, the rest are serialized. -/
def serializeParams (params : List (String × Option ParamValue)) : List (String × String) :=
  params.filterMap fun p => p.2.map fun v => (p.1, serializeParamValue v)

/-- The full search-parameter list `request` builds: the auth token first
(`getAuthParams`), then the serialized entries. -/
def buildQueryParams (accessToken : String) (params : List (String × Option ParamValue)) :
    List (String × String) :=
  ("access_token", accessToken) :: serializeParams params

/-! ## Response handling (`src/client.ts`, `request` and `postForm`) -/

/-- The observable parts of a `fetch` response: its status, the
`Retry-After` header (`none` = absent), the body parsed as a JSON error
body (`none` = the body failed to parse, in which case the source
substitutes `{}`), and the typed payload a success would return. -/
structure HttpResponse (α : Type) where
  status : Int
  retryAfterHeader : Option String
  errorBody : Option ErrorBody
  payload : α
  deriving DecidableEq, Repr

/-- `Response.ok`: status in the inclusive range 200–299. -/
def responseOk (status : Int) : Bool :=
  decide (200 ≤ status) && decide (status ≤ 299)

/-- `retryAfter ? Number.parseInt(retryAfter, 10) : 60` where `retryAfter`
is `response.headers.get('Retry-After')` (truthiness: `null` and the
empty string fall back to 60). -/
def rateLimitRetryAfter (header : Option String) : JsNum :=
  match header with
  | none => .int 60
  | some s => if s = "" then .int 60 else jsParseInt s

/-- The three-way outcome of a dispatched request. -/
inductive RequestResult (α : Type) where
  | failure (e : MetaAdsApiError)
  | noContent
  | success (value : α)
  deriving DecidableEq, Repr

/-- The response-interpretation part of the generic `request` primitive
(lines 337–357 of `src/client.ts`): 429 first, then non-ok statuses via
the classifier, then 204, then the parsed payload. -/
def handleResponse {α : Type} (r : HttpResponse α) : RequestResult α :=
  if r.status = 429 then
    .failure (mkRateLimitError "Rate limit exceeded" (rateLimitRetryAfter r.retryAfterHeader) none)
  else if ¬ responseOk r.status then
    .failure (parseMetaApiError (r.errorBody.getD { error := none }) r.status)
  else if r.status = 204 then
    .noContent
  else
    .success r.payload

/-- The response-interpretation part of `postForm` (lines 373–378): only
the non-ok branch, classified from the body; no 429 and no 204 branch. -/
def handleFormResponse {α : Type} (r : HttpResponse α) : RequestResult α :=
  if ¬ responseOk r.status then
    .failure (parseMetaApiError (r.errorBody.getD { error := none }) r.status)
  else
    .success r.payload

/-- `postForm` appends the auth token to the submitted form fields
(`formData.append('access_token', ...)`). -/
def postFormFields (accessToken : String) (fields : List (String × String)) :
    List (String × String) :=
  fields ++ [("access_token", accessToken)]

/-! ## Client construction (`createMetaAdsClient`, `src/types/env.ts`) -/

/-- `TenantCredentials` from `src/types/env.ts`. -/
structure TenantCredentials where
  accessToken : String
  adAccountId : Option String := none
  businessId : Option String := none
  appId : Option String := none
  appSecret : Option String := none
  apiVersion : Option String := none
  deriving DecidableEq, Repr

def META_API_BASE_URL : String := "https://graph.facebook.com"

def DEFAULT_API_VERSION : String := "v21.0"

/-- The state a constructed `MetaAdsClientImpl` holds. -/
structure ClientState where
  credentials : TenantCredentials
  baseUrl : String
  apiVersion : String
  deriving DecidableEq, Repr

/-- `createMetaAdsClient`: reject a falsy access token with an
`AuthenticationError` before any request can be made; otherwise bind the
credentials and resolve the API version. -/
def createMetaAdsClient (credentials : TenantCredentials) :
    Except MetaAdsApiError ClientState :=
  if credentials.accessToken = "" then
    .error (mkAuthenticationError "Access token is required" none none)
  else
    .ok { credentials := credentials
          baseUrl := META_API_BASE_URL
          apiVersion := jsOrString credentials.apiVersion DEFAULT_API_VERSION }

/-! ## Account-id normalization (inlined in each account-scoped method) -/

/-- `accountId.startsWith('act_') ? accountId : 'act_' + accountId`. -/
def normalizeAccountId (accountId : String) : String :=
  if jsStartsWith accountId "act_" then accountId else "act_" ++ accountId

/-! ## Entity-operation parameter builders (`src/client.ts`)

Each `if (input.x) params.x = ...` guard (JavaScript truthiness) becomes a
`truthy*Param`, each `if (input.x !== undefined) params.x = ...` a
`defined*Param`.  Structured sub-objects that the source passes through
`JSON.stringify` (targeting, promoted_object, ...) are modelled as the
opaque string they stringify to. -/

def definedStrParam (key : String) : Option String → List (String × ParamValue)
  | some v => [(key, .str v)]
  | none => []

def definedIntParam (key : String) : Option Int → List (String × ParamValue)
  | some v => [(key, .num v)]
  | none => []

def truthyStrParam (key : String) : Option String → List (String × ParamValue)
  | some v => if v = "" then [] else [(key, .str v)]
  | none => []

def truthyIntParam (key : String) : Option Int → List (String × ParamValue)
  | some v => if v = 0 then [] else [(key, .num v)]
  | none => []

/-- `CampaignCreateInput` (`src/types/entities.ts`): enum-typed fields are
modelled as strings, optional properties as `Option`. -/
structure CampaignCreateInput where
  name : String
  objective : String
  status : Option String := none
  special_ad_categories : Option (List String) := none
  daily_budget : Option Int := none
  lifetime_budget : Option Int := none
  bid_strategy : Option String := none
  spend_cap : Option Int := none
  buying_type : Option String := none
  start_time : Option String := none
  stop_time : Option String := none
  promoted_object : Option String := none
  deriving DecidableEq, Repr

/-- The `params` record `createCampaign` builds before calling `request`
(lines 445–465): fixed fields with defaults (`input.status || 'PAUSED'`,
`input.special_ad_categories || ['NONE']` — an array is always truthy,
so a supplied array wins even when empty), then truthiness-guarded
optional fields in source order. -/
def createCampaignParams (input : CampaignCreateInput) : List (String × ParamValue) :=
  [("name", .str input.name),
   ("objective", .str input.objective),
   ("status", .str (jsOrString input.status "PAUSED")),
   ("special_ad_categories", .arr (input.special_ad_categories.getD ["NONE"]))]
  ++ truthyIntParam "daily_budget" input.daily_budget
  ++ truthyIntParam "lifetime_budget" input.lifetime_budget
  ++ truthyStrParam "bid_strategy" input.bid_strategy
  ++ truthyIntParam "spend_cap" input.spend_cap
  ++ truthyStrParam "buying_type" input.buying_type
  ++ truthyStrParam "start_time" input.start_time
  ++ truthyStrParam "stop_time" input.stop_time
  ++ definedStrParam "promoted_object" input.promoted_object

/-- `CampaignUpdateInput` (`src/types/entities.ts`). -/
structure CampaignUpdateInput where
  name : Option String := none
  status : Option String := none
  daily_budget : Option Int := none
  lifetime_budget : Option Int := none
  bid_strategy : Option String := none
  spend_cap : Option Int := none
  start_time : Option String := none
  stop_time : Option String := none
  deriving DecidableEq, Repr

/-- The sparse `params` record `updateCampaign` builds (lines 470–484):
every field is guarded by `!== undefined`. -/
def updateCampaignParams (input : CampaignUpdateInput) : List (String × ParamValue) :=
  definedStrParam "name" input.name
  ++ definedStrParam "status" input.status
  ++ definedIntParam "daily_budget" input.daily_budget
  ++ definedIntParam "lifetime_budget" input.lifetime_budget
  ++ definedStrParam "bid_strategy" input.bid_strategy
  ++ definedIntParam "spend_cap" input.spend_cap
  ++ definedStrParam "start_time" input.start_time
  ++ definedStrParam "stop_time" input.stop_time

/-- `AdSetUpdateInput` (`src/types/entities.ts`); `targeting` is the
string its object stringifies to. -/
structure AdSetUpdateInput where
  name : Option String := none
  status : Option String := none
  targeting : Option String := none
  bid_amount : Option Int := none
  bid_strategy : Option String := none
  daily_budget : Option Int := none
  lifetime_budget : Option Int := none
  start_time : Option String := none
  end_time : Option String := none
  optimization_goal : Option String := none
  billing_event : Option String := none
  deriving DecidableEq, Repr

/-- The sparse `params` record `updateAdSet` builds (lines 559–576). -/
def updateAdSetParams (input : AdSetUpdateInput) : List (String × ParamValue) :=
  definedStrParam "name" input.name
  ++ definedStrParam "status" input.status
  ++ definedStrParam "targeting" input.targeting
  ++ definedIntParam "bid_amount" input.bid_amount
  ++ definedStrParam "bid_strategy" input.bid_strategy
  ++ definedIntParam "daily_budget" input.daily_budget
  ++ definedIntParam "lifetime_budget" input.lifetime_budget
  ++ definedStrParam "start_time" input.start_time
  ++ definedStrParam "end_time" input.end_time
  ++ definedStrParam "optimization_goal" input.optimization_goal
  ++ definedStrParam "billing_event" input.billing_event

/-- Lift an all-defined `params` record to the `Option`-valued entry list
the generic `request` primitive serializes. -/
def liftParams (params : List (String × ParamValue)) : List (String × Option ParamValue) :=
  params.map fun p => (p.1, some p.2)

/-! ## List operations (`listAdAccounts`, `listAdSets`) -/

def DEFAULT_AD_ACCOUNT_FIELDS : String :=
  "id,account_id,name,account_status,amount_spent,balance,business,currency,timezone_name,created_time"

def DEFAULT_ADSET_FIELDS : String :=
  "id,account_id,campaign_id,name,status,effective_status,billing_event,optimization_goal,bid_amount,bid_strategy,daily_budget,lifetime_budget,budget_remaining,start_time,end_time,targeting,promoted_object,created_time,updated_time"

/-- `PaginationParams & \x7b fields?: string \x7d` as `listAdAccounts`
receives it (the whole record itself may be absent: `params?.limit`). -/
structure ListParams where
  limit : Option Int := none
  after : Option String := none
  before : Option String := none
  fields : Option String := none
  deriving DecidableEq, Repr

/-- The query record `listAdAccounts` passes to `request` (lines
405–412): note `params?.limit || 25`, a truthiness fallback. -/
def listAdAccountsParams (params : Option ListParams) : List (String × Option ParamValue) :=
  [("fields", some (.str (jsOrString (params.bind (·.fields)) DEFAULT_AD_ACCOUNT_FIELDS))),
   ("limit", some (.num (jsOrInt (params.bind (·.limit)) 25))),
   ("after", (params.bind (·.after)).map .str),
   ("before", (params.bind (·.before)).map .str)]

/-- The parameter record of `listAdSets` (`src/client.ts` lines 497–521). -/
structure AdSetListParams where
  limit : Option Int := none
  after : Option String := none
  before : Option String := none
  fields : Option String := none
  campaignId : Option String := none
  effectiveStatus : Option (List String) := none
  deriving DecidableEq, Repr

/-- The `filtering` JSON `listAdSets` builds for a campaign-id filter. -/
def adSetFilteringJson (campaignId : String) : String :=
  "[\x7b\"field\":\"campaign.id\",\"operator\":\"EQUAL\",\"value\":"
    ++ jsonEncodeString campaignId ++ "\x7d]"

/-- The query record `listAdSets` passes to `request` (lines 497–521):
the base fields, then `filtering` added only when `params?.campaignId`
is truthy. -/
def listAdSetsParams (params : Option AdSetListParams) : List (String × Option ParamValue) :=
  [("fields", some (.str (jsOrString (params.bind (·.fields)) DEFAULT_ADSET_FIELDS))),
   ("limit", some (.num (jsOrInt (params.bind (·.limit)) 25))),
   ("after", (params.bind (·.after)).map .str),
   ("before", (params.bind (·.before)).map .str),
   ("effective_status", (params.bind (·.effectiveStatus)).map .arr)]
  ++ (match params.bind (·.campaignId) with
      | some cid => if cid = "" then [] else [("filtering", some (.str (adSetFilteringJson cid)))]
      | none => [])

/-! ## Predicates used to state the claims -/

/-- Does any field of a classified error carry the numeric code `c`
(as a number, or as its decimal rendering inside a string field)? -/
def carriesUpstreamCode (e : MetaAdsApiError) (c : Int) : Bool :=
  strContains e.code (toString c)
  || e.statusCode == some c
  || e.errorSubcode == some c
  || e.retryAfterSeconds == some (.int c)
  || strContains e.message (toString c)
  || optStrContains e.errorUserTitle (toString c)
  || optStrContains e.errorUserMsg (toString c)
  || optStrContains e.fbTraceId (toString c)

/-- The numeric codes the classifier maps to a specific (non-generic)
kind: 190, 10, the 200–299 range, the rate-limit set and 100. -/
def specialCode (c : Int) : Prop :=
  c = 190 ∨ c = 10 ∨ (200 ≤ c ∧ c < 300) ∨ c = 4 ∨ c = 17 ∨ c = 32 ∨ c = 613 ∨ c = 100

instance (c : Int) : Decidable (specialCode c) := by
  unfold specialCode
  infer_instance

/-! ## Helper lemmas -/

theorem jsStartsWith_act_append (s : String) : jsStartsWith ("act_" ++ s) "act_" = true := by
  rw [jsStartsWith, String.data_append, List.isPrefixOf_iff_prefix]
  exact List.prefix_append _ _

theorem toDigitsCore_ne_nil (b : Nat) : ∀ (f n : Nat) (ds : List Char), (f ≠ 0 ∨ ds ≠ []) →
    Nat.toDigitsCore b f n ds ≠ [] := by
  intro f
  induction f with
  | zero =>
    intro n ds h
    rcases h with h | h
    · exact absurd rfl h
    · simpa [Nat.toDigitsCore] using h
  | succ f ih =>
    intro n ds _
    rw [Nat.toDigitsCore]
    split
    · simp
    · exact ih _ _ (Or.inr (by simp))

theorem nat_repr_ne_empty (n : Nat) : Nat.repr n ≠ "" := by
  intro h
  have hd := congrArg String.data h
  rw [Nat.repr, Nat.toDigits] at hd
  simp only [List.asString] at hd
  exact toDigitsCore_ne_nil 10 (n + 1) n [] (Or.inl (Nat.succ_ne_zero n)) hd

theorem int_toString_ne_empty (c : Int) : toString c ≠ "" := by
  have he : toString c = Int.repr c := rfl
  rw [he]
  cases c with
  | ofNat m => simpa [Int.repr] using nat_repr_ne_empty m
  | negSucc m =>
    intro h
    have hd := congrArg String.data h
    rw [Int.repr] at hd
    rw [String.data_append] at hd
    simp at hd

theorem definedStrParam_key (key : String) (o : Option String) (k : String) :
    k ∈ (definedStrParam key o).map Prod.fst ↔ (k = key ∧ o.isSome = true) := by
  cases o <;> simp [definedStrParam]

theorem definedIntParam_key (key : String) (o : Option Int) (k : String) :
    k ∈ (definedIntParam key o).map Prod.fst ↔ (k = key ∧ o.isSome = true) := by
  cases o <;> simp [definedIntParam]

/-! ## Claim C1 -/

/-- Claim C1, counterexample: the body `error.code = 190` with message
"m" at HTTP status 400 is mapped to an `AuthenticationError`, and no
field of the resulting error carries the upstream numeric code 190 —
the classifier replaces it with the fixed symbolic code
"AUTHENTICATION_FAILED" and status 401, so information IS discarded,
contrary to the claim. -/
theorem C1_counterexample :
    (parseMetaApiError ⟨some ⟨some "m", some 190, none, none, none, none⟩⟩ 400).name
      = ErrorName.authenticationError
    ∧ carriesUpstreamCode
        (parseMetaApiError ⟨some ⟨some "m", some 190, none, none, none, none⟩⟩ 400) 190 = false := by
  decide

/-- Claim C1, amended: the upstream numeric code is preserved only by
the Generic fallback (stringified into the `code` field, for a nonzero
code that matches no specific kind); a code mapped to a specific kind
(190, 10, 200–299, 4/17/32/613, 100) is replaced by one of the four
fixed symbolic codes and the numeric value is discarded. -/
theorem C1_amended_code_preservation (body : ErrorBody) (err : MetaErrorObject) (c : Int)
    (st : Int) (hb : body.error = some err) (hc : err.code = some c) :
    (¬ specialCode c → c ≠ 0 →
      (parseMetaApiError body st).code = toString c
      ∧ (parseMetaApiError body st).name = .metaAdsApiError)
    ∧ (specialCode c →
      (parseMetaApiError body st).code = "AUTHENTICATION_FAILED"
      ∨ (parseMetaApiError body st).code = "PERMISSION_DENIED"
      ∨ (parseMetaApiError body st).code = "RATE_LIMIT_EXCEEDED"
      ∨ (parseMetaApiError body st).code = "VALIDATION_ERROR") := by
  obtain ⟨oe⟩ := body
  simp only at hb
  subst hb
  constructor
  · intro hspec h0
    rw [specialCode] at hspec
    push_neg at hspec
    obtain ⟨n190, n10, nrange, n4, n17, n32, n613, n100⟩ := hspec
    have h1 : err.code ≠ some 190 := by rw [hc]; simp [n190]
    have h2 : ¬ (err.code = some 10 ∨ jsCodeInPermissionRange err.code = true) := by
      rw [hc]
      simp [jsCodeInPermissionRange, n10]
      intro hne h200
      omega
    have h3 : ¬ (err.code = some 4 ∨ err.code = some 17 ∨ err.code = some 32 ∨ err.code = some 613) := by
      rw [hc]; simp [n4, n17, n32, n613]
    have h4 : err.code ≠ some 100 := by rw [hc]; simp [n100]
    simp only [parseMetaApiError]
    rw [if_neg h1, if_neg (by simpa using h2), if_neg (by simpa using h3), if_neg h4]
    refine ⟨?_, rfl⟩
    have hne := int_toString_ne_empty c
    simp [mkMetaAdsApiError, jsOrString, jsCodeString, hc, h0, hne]
  · intro hspec
    simp only [parseMetaApiError]
    rcases hspec with h | h | h | h | h | h | h
    · rw [if_pos (by rw [hc, h])]
      left
      rfl
    · have h1 : err.code ≠ some 190 := by rw [hc, h]; decide
      rw [if_neg h1, if_pos (Or.inl (by rw [hc, h]))]
      right; left
      rfl
    · have h1 : err.code ≠ some 190 := by rw [hc]; simp; omega
      have h2 : jsCodeInPermissionRange err.code = true := by
        rw [hc]; simp [jsCodeInPermissionRange]; omega
      rw [if_neg h1, if_pos (Or.inr h2)]
      right; left
      rfl
    · have h1 : err.code ≠ some 190 := by rw [hc, h]; decide
      have h2 : ¬ (err.code = some 10 ∨ jsCodeInPermissionRange err.code = true) := by
        rw [hc, h]; decide
      rw [if_neg h1, if_neg h2, if_pos (Or.inl (by rw [hc, h]))]
      right; right; left
      rfl
    · have h1 : err.code ≠ some 190 := by rw [hc, h]; decide
      have h2 : ¬ (err.code = some 10 ∨ jsCodeInPermissionRange err.code = true) := by
        rw [hc, h]; decide
      rw [if_neg h1, if_neg h2, if_pos (Or.inr (Or.inl (by rw [hc, h])))]
      right; right; left
      rfl
    · have h1 : err.code ≠ some 190 := by rw [hc, h]; decide
      have h2 : ¬ (err.code = some 10 ∨ jsCodeInPermissionRange err.code = true) := by
        rw [hc, h]; decide
      rw [if_neg h1, if_neg h2, if_pos (Or.inr (Or.inr (Or.inl (by rw [hc, h]))))]
      right; right; left
      rfl
    · rcases h with h | h
      · have h1 : err.code ≠ some 190 := by rw [hc, h]; decide
        have h2 : ¬ (err.code = some 10 ∨ jsCodeInPermissionRange err.code = true) := by
          rw [hc, h]; decide
        rw [if_neg h1, if_neg h2, if_pos (Or.inr (Or.inr (Or.inr (by rw [hc, h]))))]
        right; right; left
        rfl
      · have h1 : err.code ≠ some 190 := by rw [hc, h]; decide
        have h2 : ¬ (err.code = some 10 ∨ jsCodeInPermissionRange err.code = true) := by
          rw [hc, h]; decide
        have h3 : ¬ (err.code = some 4 ∨ err.code = some 17 ∨ err.code = some 32 ∨ err.code = some 613) := by
          rw [hc, h]; decide
        rw [if_neg h1, if_neg h2, if_neg h3, if_pos (by rw [hc, h])]
        right; right; right
        rfl

/-- Claim C1, witness for the amended theorem at the concrete generic
code 7: the classified error's `code` field is the stringified upstream
code. -/
theorem C1_amended_witness :
    (parseMetaApiError ⟨some ⟨some "m", some 7, none, none, none, none⟩⟩ 400).code = "7" := by
  have h := C1_amended_code_preservation ⟨some ⟨some "m", some 7, none, none, none, none⟩⟩
      ⟨some "m", some 7, none, none, none, none⟩ 7 400 rfl rfl
  simpa using (h.1 (by decide) (by decide)).1

/-! ## Claim C2 -/

/-- Claim C2: classification of an upstream error body is deterministic
with the fixed precedence of `parseMetaApiError`: 190 yields an
Authentication error (not retryable); 10 or any code in the 200–299
range yields Permission (not retryable); 4, 17, 32 or 613 yields
RateLimit, retryable, with the default 60-second retry-after; 100
yields Validation (not retryable); any other code yields the generic
error (not retryable); and a body without a recognizable error object
yields the generic error with code "UNKNOWN_ERROR" and the HTTP status. -/
theorem C2_classification_deterministic (body : ErrorBody) (st : Int) :
    (body.error = none →
      (parseMetaApiError body st).name = .metaAdsApiError
      ∧ (parseMetaApiError body st).code = "UNKNOWN_ERROR"
      ∧ (parseMetaApiError body st).statusCode = some st
      ∧ (parseMetaApiError body st).retryable = false)
    ∧ (∀ err : MetaErrorObject, body.error = some err →
      (err.code = some 190 →
        (parseMetaApiError body st).name = .authenticationError
        ∧ (parseMetaApiError body st).retryable = false)
      ∧ (∀ c : Int, err.code = some c → (c = 10 ∨ (200 ≤ c ∧ c < 300)) →
        (parseMetaApiError body st).name = .permissionError
        ∧ (parseMetaApiError body st).retryable = false)
      ∧ (∀ c : Int, err.code = some c → (c = 4 ∨ c = 17 ∨ c = 32 ∨ c = 613) →
        (parseMetaApiError body st).name = .rateLimitError
        ∧ (parseMetaApiError body st).retryable = true
        ∧ (parseMetaApiError body st).retryAfterSeconds = some (.int 60))
      ∧ (err.code = some 100 →
        (parseMetaApiError body st).name = .validationError
        ∧ (parseMetaApiError body st).retryable = false)
      ∧ (∀ c : Int, err.code = some c → ¬ specialCode c →
        (parseMetaApiError body st).name = .metaAdsApiError
        ∧ (parseMetaApiError body st).retryable = false
        ∧ (parseMetaApiError body st).code = jsCodeString (some c))
      ∧ (err.code = none →
        (parseMetaApiError body st).name = .metaAdsApiError
        ∧ (parseMetaApiError body st).retryable = false
        ∧ (parseMetaApiError body st).code = "UNKNOWN_ERROR")) := by
  obtain ⟨oe⟩ := body
  constructor
  · rintro rfl
    exact ⟨rfl, rfl, rfl, rfl⟩
  · rintro err rfl
    refine ⟨?_, ?_, ?_, ?_, ?_, ?_⟩
    · intro h190
      simp [parseMetaApiError, h190, mkAuthenticationError, mkMetaAdsApiError]
    · intro c hc hcond
      have h1 : err.code ≠ some 190 := by rw [hc]; simp; omega
      have h2 : err.code = some 10 ∨ jsCodeInPermissionRange err.code = true := by
        rcases hcond with h | h
        · left; rw [hc, h]
        · right; rw [hc]; simp [jsCodeInPermissionRange]; omega
      simp only [parseMetaApiError]
      rw [if_neg h1, if_pos (by simpa using h2)]
      exact ⟨rfl, rfl⟩
    · intro c hc hcond
      have h1 : err.code ≠ some 190 := by rw [hc]; simp; omega
      have h2 : ¬ (err.code = some 10 ∨ jsCodeInPermissionRange err.code = true) := by
        rw [hc]
        simp [jsCodeInPermissionRange]
        omega
      have h3 : err.code = some 4 ∨ err.code = some 17 ∨ err.code = some 32 ∨ err.code = some 613 := by
        rw [hc]
        rcases hcond with h | h | h | h <;> simp [h]
      simp only [parseMetaApiError]
      rw [if_neg h1, if_neg (by simpa using h2), if_pos (by simpa using h3)]
      exact ⟨rfl, rfl, rfl⟩
    · intro h100
      have h1 : err.code ≠ some 190 := by rw [h100]; simp
      have h2 : ¬ (err.code = some 10 ∨ jsCodeInPermissionRange err.code = true) := by
        rw [h100]; simp [jsCodeInPermissionRange]
      have h3 : ¬ (err.code = some 4 ∨ err.code = some 17 ∨ err.code = some 32 ∨ err.code = some 613) := by
        rw [h100]; simp
      simp only [parseMetaApiError]
      rw [if_neg h1, if_neg (by simpa using h2), if_neg (by simpa using h3), if_pos h100]
      exact ⟨rfl, rfl⟩
    · intro c hc hspec
      rw [specialCode] at hspec
      push_neg at hspec
      obtain ⟨n190, n10, nrange, n4, n17, n32, n613, n100⟩ := hspec
      have h1 : err.code ≠ some 190 := by rw [hc]; simp [n190]
      have h2 : ¬ (err.code = some 10 ∨ jsCodeInPermissionRange err.code = true) := by
        rw [hc]
        simp [jsCodeInPermissionRange, n10]
        intro hne h200
        omega
      have h3 : ¬ (err.code = some 4 ∨ err.code = some 17 ∨ err.code = some 32 ∨ err.code = some 613) := by
        rw [hc]; simp [n4, n17, n32, n613]
      have h4 : err.code ≠ some 100 := by rw [hc]; simp [n100]
      simp only [parseMetaApiError]
      rw [if_neg h1, if_neg (by simpa using h2), if_neg (by simpa using h3), if_neg h4]
      refine ⟨rfl, rfl, ?_⟩
      have hne : jsCodeString (some c) ≠ "" := by
        simp only [jsCodeString]
        split
        · decide
        · exact int_toString_ne_empty c
      simp [mkMetaAdsApiError, jsOrString, hne, hc]
    · intro hnone
      have h1 : err.code ≠ some 190 := by rw [hnone]; simp
      have h2 : ¬ (err.code = some 10 ∨ jsCodeInPermissionRange err.code = true) := by
        rw [hnone]; simp [jsCodeInPermissionRange]
      have h3 : ¬ (err.code = some 4 ∨ err.code = some 17 ∨ err.code = some 32 ∨ err.code = some 613) := by
        rw [hnone]; simp
      have h4 : err.code ≠ some 100 := by rw [hnone]; simp
      simp only [parseMetaApiError]
      rw [if_neg h1, if_neg (by simpa using h2), if_neg (by simpa using h3), if_neg h4]
      refine ⟨rfl, rfl, ?_⟩
      simp [mkMetaAdsApiError, jsOrString, jsCodeString, hnone]

/-! ## Claim C3 -/

/-- Claim C3, counterexample: a transport 429 whose Retry-After header
is present but not an integer ("soon") produces a RateLimit failure
whose retry-after is NaN (the raw result of `Number.parseInt`), not the
60 seconds the claim asserts for a non-integer header. -/
theorem C3_counterexample :
    handleResponse (⟨429, some "soon", none, ()⟩ : HttpResponse Unit)
      = .failure (mkRateLimitError "Rate limit exceeded" JsNum.nan none)
    ∧ (mkRateLimitError "Rate limit exceeded" JsNum.nan none).retryAfterSeconds
        ≠ some (JsNum.int 60) := by
  decide

/-- Claim C3, amended: a transport 429 — checked before the body is
consulted, so the result is independent of the body — always produces a
retryable RateLimit failure whose retry-after is `Number.parseInt` of
the Retry-After header whenever the header is present and non-empty
(which is NaN when the header has no leading integer), and 60 seconds
only when the header is absent or empty. -/
theorem C3_amended_429_handling {α : Type} (r : HttpResponse α) (h : r.status = 429) :
    handleResponse r
      = .failure (mkRateLimitError "Rate limit exceeded" (rateLimitRetryAfter r.retryAfterHeader) none)
    ∧ (∀ b : Option ErrorBody, handleResponse { r with errorBody := b } = handleResponse r)
    ∧ (r.retryAfterHeader = none → rateLimitRetryAfter r.retryAfterHeader = .int 60)
    ∧ (∀ s : String, r.retryAfterHeader = some s → s ≠ "" →
        rateLimitRetryAfter r.retryAfterHeader = jsParseInt s)
    ∧ (mkRateLimitError "Rate limit exceeded" (rateLimitRetryAfter r.retryAfterHeader) none).name
        = ErrorName.rateLimitError
    ∧ (mkRateLimitError "Rate limit exceeded" (rateLimitRetryAfter r.retryAfterHeader) none).retryable
        = true := by
  refine ⟨by simp [handleResponse, h], ?_, ?_, ?_, rfl, rfl⟩
  · intro b
    simp [handleResponse, h]
  · intro h0
    rw [h0]
    rfl
  · intro s hs hne
    rw [hs]
    simp [rateLimitRetryAfter, hne]

/-- Claim C3, witness for the amended theorem: a 429 with an integer
Retry-After header "30" yields a RateLimit failure with retry-after 30. -/
theorem C3_amended_witness :
    handleResponse (⟨429, some "30", none, ()⟩ : HttpResponse Unit)
      = .failure (mkRateLimitError "Rate limit exceeded" (JsNum.int 30) none) := by
  have h := C3_amended_429_handling (⟨429, some "30", none, ()⟩ : HttpResponse Unit) rfl
  simpa using h.1

/-! ## Claim C4 -/

/-- Claim C4, counterexample: `postForm` has no transport-429 branch. A
429 response with an unparseable body (empty-object substitute) and a
Retry-After header of "30" is classified from the body into the generic
UNKNOWN_ERROR failure, not the RateLimit failure built from the header
that the claim asserts. -/
theorem C4_counterexample :
    handleFormResponse (⟨429, some "30", none, ()⟩ : HttpResponse Unit)
      = .failure (mkMetaAdsApiError "API error: 429" (some 429) (some "UNKNOWN_ERROR")
          false none none none none)
    ∧ (mkMetaAdsApiError "API error: 429" (some 429) (some "UNKNOWN_ERROR")
          false none none none none).name ≠ ErrorName.rateLimitError
    ∧ (mkMetaAdsApiError "API error: 429" (some 429) (some "UNKNOWN_ERROR")
          false none none none none).retryAfterSeconds ≠ some (JsNum.int 30) := by
  decide

/-- Claim C4, amended: the form-upload primitive applies only the
body-classification branch of the generic primitive's non-success
handling, omitting both the 204 branch and the transport-429 branch:
every non-success status (429 included) is classified from the
JSON-parsed body with an empty object substituted on parse failure, the
Retry-After header is never consulted, and the auth token is injected
as a form field. -/
theorem C4_amended_form_handling {α : Type} (r : HttpResponse α) :
    (responseOk r.status = false →
      handleFormResponse r = .failure (parseMetaApiError (r.errorBody.getD ⟨none⟩) r.status))
    ∧ (responseOk r.status = true → handleFormResponse r = .success r.payload)
    ∧ (∀ h : Option String, handleFormResponse { r with retryAfterHeader := h } = handleFormResponse r)
    ∧ (∀ (tok : String) (fields : List (String × String)),
        ("access_token", tok) ∈ postFormFields tok fields) := by
  refine ⟨?_, ?_, ?_, ?_⟩
  · intro h
    simp [handleFormResponse, h]
  · intro h
    simp [handleFormResponse, h]
  · intro h
    simp [handleFormResponse]
  · intro tok fields
    simp [postFormFields]

/-! ## Claim C5 -/

/-- Claim C5: constructing a client with an empty bearer token fails
with an Authentication-kind error whose message names the expected
credential ("Access token is required"), before any request state can
exist; conversely a client is ever constructed only for a non-empty
token, so no operation can be dispatched with an absent token. -/
theorem C5_missing_token_fails_fast (c : TenantCredentials) :
    (c.accessToken = "" →
      createMetaAdsClient c = .error (mkAuthenticationError "Access token is required" none none)
      ∧ (mkAuthenticationError "Access token is required" none none).name = ErrorName.authenticationError
      ∧ (mkAuthenticationError "Access token is required" none none).code = "AUTHENTICATION_FAILED"
      ∧ strContains (mkAuthenticationError "Access token is required" none none).message "Access token" = true)
    ∧ (∀ st : ClientState, createMetaAdsClient c = .ok st → c.accessToken ≠ "") := by
  constructor
  · intro h
    refine ⟨by simp [createMetaAdsClient, h], by decide, by decide, by decide⟩
  · intro st hok hempty
    simp [createMetaAdsClient, hempty] at hok

/-! ## Claim C6 -/

/-- Claim C6: a campaign-create invocation with no caller-supplied
status carries status "PAUSED", and with no special-ad-categories
carries special_ad_categories ["NONE"]; a caller-supplied (non-empty)
status overrides the default; and the concrete "Spring Sale" /
"OUTCOME_SALES" input with nothing else produces exactly the four
defaulted parameters. -/
theorem C6_create_campaign_defaults (input : CampaignCreateInput) :
    (input.status = none →
      (createCampaignParams input).lookup "status" = some (.str "PAUSED"))
    ∧ (input.special_ad_categories = none →
      (createCampaignParams input).lookup "special_ad_categories" = some (.arr ["NONE"]))
    ∧ (∀ s : String, input.status = some s → s ≠ "" →
      (createCampaignParams input).lookup "status" = some (.str s))
    ∧ createCampaignParams { name := "Spring Sale", objective := "OUTCOME_SALES" } =
      [("name", .str "Spring Sale"), ("objective", .str "OUTCOME_SALES"),
       ("status", .str "PAUSED"), ("special_ad_categories", .arr ["NONE"])] := by
  refine ⟨?_, ?_, ?_, by decide⟩
  · intro h
    simp [createCampaignParams, List.lookup, jsOrString, h]
  · intro h
    simp [createCampaignParams, List.lookup, h]
  · intro s hs hne
    simp [createCampaignParams, List.lookup, jsOrString, hs, hne]

/-! ## Claim C7 -/

/-- Claim C7: in the generic request primitive's serialization, a key
appears in the serialized list exactly when its entry has a defined
(non-`undefined`) value — so explicitly supplied falsy values (0, "",
false) do appear — and scalars are stringified while arrays are
JSON-encoded. -/
theorem C7_param_serialization (params : List (String × Option ParamValue)) :
    (∀ k : String, (∃ s, (k, s) ∈ serializeParams params) ↔ ∃ v, (k, some v) ∈ params)
    ∧ (∀ (k : String) (v : ParamValue), (k, some v) ∈ params →
        (k, serializeParamValue v) ∈ serializeParams params)
    ∧ serializeParamValue (.num 0) = "0"
    ∧ serializeParamValue (.str "") = ""
    ∧ serializeParamValue (.bool false) = "false"
    ∧ (∀ n : Int, serializeParamValue (.num n) = toString n)
    ∧ (∀ xs : List String, serializeParamValue (.arr xs) = jsonEncodeStrList xs) := by
  refine ⟨?_, ?_, rfl, rfl, rfl, fun n => rfl, fun xs => rfl⟩
  · intro k
    constructor
    · rintro ⟨s, hs⟩
      rw [serializeParams, List.mem_filterMap] at hs
      obtain ⟨⟨k2, o⟩, hmem, hf⟩ := hs
      cases o with
      | none => exact absurd hf (by simp)
      | some v =>
        simp only [Option.map_some'] at hf
        cases hf
        exact ⟨v, hmem⟩
    · rintro ⟨v, hv⟩
      refine ⟨serializeParamValue v, ?_⟩
      rw [serializeParams, List.mem_filterMap]
      exact ⟨(k, some v), hv, rfl⟩
  · intro k v hv
    rw [serializeParams, List.mem_filterMap]
    exact ⟨(k, some v), hv, rfl⟩

/-! ## Claim C8 -/

/-- Claim C8: update operations build sparse parameter sets — a key
appears in the outbound parameters of `updateCampaign`/`updateAdSet`
exactly when the caller supplied the corresponding input field; in
particular an update with only `name` set serializes to exactly the
auth credential plus that one field. -/
theorem C8_sparse_update (input : CampaignUpdateInput) (input2 : AdSetUpdateInput)
    (v : String) (tok : String) :
    (∀ k : String, k ∈ (updateCampaignParams input).map Prod.fst ↔
      ((k = "name" ∧ input.name.isSome = true) ∨ (k = "status" ∧ input.status.isSome = true)
       ∨ (k = "daily_budget" ∧ input.daily_budget.isSome = true)
       ∨ (k = "lifetime_budget" ∧ input.lifetime_budget.isSome = true)
       ∨ (k = "bid_strategy" ∧ input.bid_strategy.isSome = true)
       ∨ (k = "spend_cap" ∧ input.spend_cap.isSome = true)
       ∨ (k = "start_time" ∧ input.start_time.isSome = true)
       ∨ (k = "stop_time" ∧ input.stop_time.isSome = true)))
    ∧ (∀ k : String, k ∈ (updateAdSetParams input2).map Prod.fst ↔
      ((k = "name" ∧ input2.name.isSome = true) ∨ (k = "status" ∧ input2.status.isSome = true)
       ∨ (k = "targeting" ∧ input2.targeting.isSome = true)
       ∨ (k = "bid_amount" ∧ input2.bid_amount.isSome = true)
       ∨ (k = "bid_strategy" ∧ input2.bid_strategy.isSome = true)
       ∨ (k = "daily_budget" ∧ input2.daily_budget.isSome = true)
       ∨ (k = "lifetime_budget" ∧ input2.lifetime_budget.isSome = true)
       ∨ (k = "start_time" ∧ input2.start_time.isSome = true)
       ∨ (k = "end_time" ∧ input2.end_time.isSome = true)
       ∨ (k = "optimization_goal" ∧ input2.optimization_goal.isSome = true)
       ∨ (k = "billing_event" ∧ input2.billing_event.isSome = true)))
    ∧ updateCampaignParams { name := some v } = [("name", .str v)]
    ∧ buildQueryParams tok (liftParams (updateCampaignParams { name := some v }))
        = [("access_token", tok), ("name", v)] := by
  refine ⟨?_, ?_, rfl, rfl⟩
  · intro k
    simp only [updateCampaignParams, List.map_append, List.mem_append,
      definedStrParam_key, definedIntParam_key, or_assoc]
  · intro k
    simp only [updateAdSetParams, List.map_append, List.mem_append,
      definedStrParam_key, definedIntParam_key, or_assoc]

/-! ## Claim C9 -/

/-- Claim C9: account-id normalization is idempotent and prefixing —
normalizing twice equals normalizing once, and the result always starts
with the "act_" namespace prefix. -/
theorem C9_account_id_normalization (a : String) :
    normalizeAccountId (normalizeAccountId a) = normalizeAccountId a
    ∧ jsStartsWith (normalizeAccountId a) "act_" = true := by
  cases hb : jsStartsWith a "act_"
  · have h1 : normalizeAccountId a = "act_" ++ a := by simp [normalizeAccountId, hb]
    refine ⟨?_, by rw [h1]; exact jsStartsWith_act_append a⟩
    rw [h1]
    simp [normalizeAccountId, jsStartsWith_act_append]
  · have h1 : normalizeAccountId a = a := by simp [normalizeAccountId, hb]
    exact ⟨by rw [h1, h1], by rw [h1, hb]⟩

/-! ## Claim C10 -/

/-- Claim C10: the list operations compute their page size with the
truthiness fallback `params?.limit || 25`, so an explicit limit of 0
(or an absent limit) becomes 25 and the transmitted limit is never the
number 0 — even though the underlying request primitive itself would
serialize an explicitly supplied 0 (last conjunct). -/
theorem C10_limit_truthiness (p : Option ListParams) (q : Option AdSetListParams) :
    ((listAdAccountsParams p).lookup "limit" = some (some (.num (jsOrInt (p.bind (·.limit)) 25))))
    ∧ (p.bind (·.limit) = some 0 → jsOrInt (p.bind (·.limit)) 25 = 25)
    ∧ jsOrInt (p.bind (·.limit)) 25 ≠ 0
    ∧ ((listAdSetsParams q).lookup "limit" = some (some (.num (jsOrInt (q.bind (·.limit)) 25))))
    ∧ (q.bind (·.limit) = some 0 → jsOrInt (q.bind (·.limit)) 25 = 25)
    ∧ jsOrInt (q.bind (·.limit)) 25 ≠ 0
    ∧ serializeParams [("limit", some (.num 0))] = [("limit", "0")] := by
  refine ⟨rfl, ?_, ?_, ?_, ?_, ?_, rfl⟩
  · intro h; rw [h]; rfl
  · cases hp : p.bind (·.limit) with
    | none => simp [jsOrInt]
    | some n =>
      by_cases hn : n = 0 <;> simp [jsOrInt, hn]
  · cases hq : q.bind (·.campaignId) with
    | none => simp [listAdSetsParams, hq, List.lookup]
    | some cid => by_cases hc : cid = "" <;> simp [listAdSetsParams, hq, hc, List.lookup]
  · intro h; rw [h]; rfl
  · cases hp : q.bind (·.limit) with
    | none => simp [jsOrInt]
    | some n =>
      by_cases hn : n = 0 <;> simp [jsOrInt, hn]

end MetaAds
